import Mathlib

/-!
Shallow embedding of the argument parsing/validation subsystem and the batch
orchestration logic of `src/resize-images.js`, together with theorems checking
the specification's claims against it.

Modelling conventions:
* A JavaScript options object is a record with one field per schema key; a
  field value `none` means the key is absent, `some none` means the key is
  present but bound to `undefined`, and `some (some s)` means the key is bound
  to the string `s`.
* `fs.readdir` is an explicit `Except String (List String)` input (error
  message or directory listing); `child_process.exec` is an oracle
  `String → Option String` mapping a command line to `none` (success) or
  `some msg` (failure with `error.message`).  `Promise.all` over the
  synchronously-settled task list is `collectAll`, which aggregates all
  successes in order or propagates the first rejection.
* `parseInt` (radix unspecified), `toLowerCase`, `path.join` on plain
  segments and `path.parse(..).name` on bare filenames are modelled by
  `parseIntJS`, `jsToLower`, `pathJoin` and `fileBaseName`.
-/

/-- Keys of the argument schema object `ARGUMENT_DEFINITIONS`. -/
inductive ArgKey where
  | input
  | output
  | size
  | format
deriving DecidableEq, Repr

/-- One entry of `ARGUMENT_DEFINITIONS` (src/resize-images.js lines 40-67). -/
structure ArgDef where
  variants : List String
  description : String
  errorMessage : String
  required : Bool
  defaultValue : Option Int
deriving Repr, DecidableEq

/-- The `input` schema entry. -/
def inputDef : ArgDef :=
  { variants := ["-i", "-input"]
  , description := "Input folder containing images to resize"
  , errorMessage := "Input folder is required. Use -i or -input to specify input folder."
  , required := true
  , defaultValue := none }

/-- The `output` schema entry. -/
def outputDef : ArgDef :=
  { variants := ["-o", "-output"]
  , description := "Output folder where resized images will be saved"
  , errorMessage := "Output folder is required. Use -o or -output to specify output folder."
  , required := true
  , defaultValue := none }

/-- The `size` schema entry. -/
def sizeDef : ArgDef :=
  { variants := ["-s", "-size"]
  , description := "Output width for resized images (default: 350)"
  , errorMessage := "Size must be a valid number. Use -s or -size to specify output width."
  , required := false
  , defaultValue := some 350 }

/-- The `format` schema entry; its `defaultValue` is `null` in the source. -/
def formatDef : ArgDef :=
  { variants := ["-f", "-format"]
  , description := "Output format for images (jpg, png, webp)"
  , errorMessage := "Format must be jpg, png, or webp. Use -f or -format to specify output format."
  , required := false
  , defaultValue := none }

/-- `ARGUMENT_DEFINITIONS` as the ordered list of entries that
`Object.entries` yields (insertion order: input, output, size, format). -/
def ARGUMENT_DEFINITIONS : List (ArgKey × ArgDef) :=
  [(ArgKey.input, inputDef), (ArgKey.output, outputDef),
   (ArgKey.size, sizeDef), (ArgKey.format, formatDef)]

/-- The options object built by `parseArguments`.  `none` = key absent,
`some none` = key present bound to `undefined`, `some (some s)` = bound to
the string `s`. -/
structure Options where
  input : Option (Option String) := none
  output : Option (Option String) := none
  size : Option (Option String) := none
  format : Option (Option String) := none
deriving Repr, DecidableEq

/-- Property read `options[key]`. -/
def Options.get (o : Options) : ArgKey → Option (Option String)
  | ArgKey.input => o.input
  | ArgKey.output => o.output
  | ArgKey.size => o.size
  | ArgKey.format => o.format

/-- Property write `options[key] = v` (`v = none` writes `undefined`). -/
def Options.set (o : Options) : ArgKey → Option String → Options
  | ArgKey.input, v => { o with input := some v }
  | ArgKey.output, v => { o with output := some v }
  | ArgKey.size, v => { o with size := some v }
  | ArgKey.format, v => { o with format := some v }

/-- JavaScript truthiness of `options[key]`: an absent key and a key bound to
`undefined` or to the empty string are falsy; any other string is truthy. -/
def optTruthy : Option (Option String) → Bool
  | some (some s) => s ≠ ""
  | _ => false

/-- First schema entry (in `Object.entries` order) one of whose `variants`
equals the token; the inner loop of `parseArguments` with its `break`. -/
def aliasLookup (arg : String) : List (ArgKey × ArgDef) → Option ArgKey
  | [] => none
  | (key, d) :: rest =>
      if d.variants.contains arg then some key else aliasLookup arg rest

/-- Alias match against the full schema. -/
def findDefinition (arg : String) : Option ArgKey :=
  aliasLookup arg ARGUMENT_DEFINITIONS

/-- The scan loop of `parseArguments` (src/resize-images.js lines 73-84): on
an alias match the key is bound to the following token (`undefined` when the
flag is the last token) and the scan advances past both tokens; otherwise the
token is skipped. -/
def parseLoop (opts : Options) : List String → Options
  | [] => opts
  | [arg] =>
      match findDefinition arg with
      | some key => opts.set key none
      | none => opts
  | arg :: v :: rest =>
      match findDefinition arg with
      | some key => parseLoop (opts.set key (some v)) rest
      | none => parseLoop opts (v :: rest)

/-- `parseArguments(args)`: scan the token list into a fresh options object. -/
def parseArguments (args : List String) : Options :=
  parseLoop {} args

/-- JavaScript `parseInt(s)` with no radix argument: skip leading whitespace,
read an optional sign, then a `0x`/`0X` hexadecimal or decimal digit prefix;
`none` models `NaN` (no digits found). -/
def parseIntJS (s : String) : Option Int :=
  let cs := s.toList.dropWhile (fun c => c.isWhitespace)
  let signAndRest : Int × List Char :=
    match cs with
    | '-' :: t => (-1, t)
    | '+' :: t => (1, t)
    | _ => (1, cs)
  let sign := signAndRest.1
  let body := signAndRest.2
  let decimalValue : List Char → Option Int := fun l =>
    let ds := l.takeWhile Char.isDigit
    if ds.isEmpty then none
    else some (sign * (ds.foldl (fun n c => n * 10 + (c.toNat - '0'.toNat)) 0 : Nat))
  let hexDigitVal : Char → Nat := fun c =>
    if c.isDigit then c.toNat - '0'.toNat
    else if 'a' ≤ c ∧ c ≤ 'f' then c.toNat - 'a'.toNat + 10
    else c.toNat - 'A'.toNat + 10
  let isHexDigit : Char → Bool := fun c =>
    c.isDigit || ('a' ≤ c && c ≤ 'f') || ('A' ≤ c && c ≤ 'F')
  let hexValue : List Char → Option Int := fun l =>
    let ds := l.takeWhile isHexDigit
    if ds.isEmpty then none
    else some (sign * (ds.foldl (fun n c => n * 16 + hexDigitVal c) 0 : Nat))
  match body with
  | '0' :: 'x' :: t => hexValue t
  | '0' :: 'X' :: t => hexValue t
  | _ => decimalValue body

/-- JavaScript `toLowerCase()` on the argument strings in play (ASCII). -/
def jsToLower (s : String) : String :=
  String.mk (s.toList.map Char.toLower)

/-- One iteration of the `validateArguments` loop for a single schema entry
(src/resize-images.js lines 91-111): the required check, then the size check
when the key is `size` (guarded by the value's truthiness), then the format
check when the key is `format` (guarded by the value not being `undefined`).
The source's three sequenced `if` statements are keyed on distinct keys, so
at most one specific check fires per iteration and an `else if` chain is an
exact rendering. -/
def validateEntry (options : Options) (key : ArgKey) (d : ArgDef) :
    Except String Unit :=
  if d.required && !(optTruthy (options.get key)) then
    Except.error d.errorMessage
  else if key = ArgKey.size then
    match options.get key with
    | some (some s) =>
        if s = "" then Except.ok ()
        else
          match parseIntJS s with
          | none => Except.error "Size must be a positive number."
          | some v =>
              if v ≤ 0 then Except.error "Size must be a positive number."
              else Except.ok ()
    | _ => Except.ok ()
  else if key = ArgKey.format then
    match options.get key with
    | some (some s) =>
        if ["jpg", "png", "webp"].contains (jsToLower s) then Except.ok ()
        else Except.error "Format must be jpg, png, or webp."
    | _ => Except.ok ()
  else Except.ok ()

/-- The `validateArguments` loop over `Object.entries(ARGUMENT_DEFINITIONS)`
in declaration order; the first thrown error aborts the loop. -/
def validateLoop (options : Options) : List (ArgKey × ArgDef) → Except String Unit
  | [] => Except.ok ()
  | (key, d) :: rest =>
      match validateEntry options key d with
      | Except.error e => Except.error e
      | Except.ok _ => validateLoop options rest

/-- `validateArguments(options)`: `Except.error msg` models a thrown
`Error(msg)`. -/
def validateArguments (options : Options) : Except String Unit :=
  validateLoop options ARGUMENT_DEFINITIONS

/-- `path.join` on two plain non-empty segments. -/
def pathJoin (a b : String) : String :=
  a ++ "/" ++ b

/-- Prefix of the character list before its last `'.'`, when a dot exists. -/
def beforeLastDot : List Char → Option (List Char)
  | [] => none
  | c :: rest =>
      match beforeLastDot rest with
      | some n => some (c :: n)
      | none => if c = '.' then some [] else none

/-- `path.parse(file).name` for a bare filename: everything before the last
`'.'`, except that a dot in the leading position starts no extension. -/
def fileBaseName (file : String) : String :=
  match beforeLastDot file.toList with
  | some [] => file
  | some n => String.mk n
  | none => file

/-- Destination filename computed per file (src/resize-images.js lines
156-160): when a truthy format is supplied, the base name with the extension
replaced by the format; otherwise the original filename. -/
def outputFilenameFor (file : String) (outputFormat : Option String) : String :=
  match outputFormat with
  | some fmt => if fmt = "" then file else fileBaseName file ++ "." ++ fmt
  | none => file

/-- The generated converter command line (src/resize-images.js lines
163-168). -/
def buildCmd (inputFolder outputFolder : String) (outputWidth : Int)
    (outputFormat : Option String) (file : String) : String :=
  let inputPath := pathJoin inputFolder file
  let outputPath := pathJoin outputFolder (outputFilenameFor file outputFormat)
  let base := "ffmpeg -y -i \"" ++ inputPath ++ "\" -vf \"scale=" ++
    toString outputWidth ++ ":-1\""
  let withFmt :=
    match outputFormat with
    | some fmt => if fmt = "" then base else base ++ " -f " ++ fmt
    | none => base
  withFmt ++ " \"" ++ outputPath ++ "\""

/-- One per-file conversion task (src/resize-images.js lines 151-177): invoke
the converter oracle on the generated command; a failure rejects with the file
name and the tool's message, a success resolves with the success line. -/
def fileTask (inputFolder outputFolder : String) (outputWidth : Int)
    (outputFormat : Option String) (exec : String → Option String)
    (file : String) : Except String String :=
  match exec (buildCmd inputFolder outputFolder outputWidth outputFormat file) with
  | some msg => Except.error ("Error resizing " ++ file ++ ": " ++ msg)
  | none => Except.ok ("Resized " ++ file ++ " -> " ++
      pathJoin outputFolder (outputFilenameFor file outputFormat))

/-- `Promise.all` over the already-settled task list: all results in order,
or the first rejection. -/
def collectAll : List (Except String String) → Except String (List String)
  | [] => Except.ok []
  | Except.error e :: _ => Except.error e
  | Except.ok r :: rest => (collectAll rest).map (fun l => r :: l)

/-- The extension filter `/\.(jpe?g|png)$/i` (src/resize-images.js line
144): the lowercased filename ends in `.jpg`, `.jpeg` or `.png`. -/
def matchesImageExt (f : String) : Bool :=
  let l := f.toList.map Char.toLower
  ".jpg".toList.isSuffixOf l || ".jpeg".toList.isSuffixOf l ||
    ".png".toList.isSuffixOf l

/-- Outcome `resizeImages` resolves with: either the informational string or
the list of per-file success lines. -/
inductive ResizeOutcome where
  | message (s : String)
  | results (rs : List String)
deriving Repr, DecidableEq

/-- `resizeImages` (src/resize-images.js lines 130-185) over the explicit
directory-listing result and converter oracle.  The `existsSync`/`mkdirSync`
side effects touch no data this function returns and are not modelled. -/
def resizeImages (inputFolder outputFolder : String) (outputWidth : Int)
    (outputFormat : Option String) (listing : Except String (List String))
    (exec : String → Option String) : Except String ResizeOutcome :=
  match listing with
  | Except.error msg => Except.error ("Error reading folder: " ++ msg)
  | Except.ok files =>
      let imageFiles := files.filter matchesImageExt
      if imageFiles.isEmpty then
        Except.ok (ResizeOutcome.message "No JPG or PNG images found in folder.")
      else
        match collectAll (imageFiles.map
            (fileTask inputFolder outputFolder outputWidth outputFormat exec)) with
        | Except.ok results => Except.ok (ResizeOutcome.results results)
        | Except.error e => Except.error e

/-! ### Helper lemmas -/

theorem Options.get_set_self (o : Options) (k : ArgKey) (v : Option String) :
    (o.set k v).get k = some v := by
  cases k <;> rfl

theorem validateEntry_input_ok (opts : Options)
    (h : optTruthy opts.input = true) :
    validateEntry opts ArgKey.input inputDef = Except.ok () := by
  simp [validateEntry, inputDef, Options.get, h]

theorem validateEntry_input_err (opts : Options)
    (h : optTruthy opts.input = false) :
    validateEntry opts ArgKey.input inputDef =
      Except.error inputDef.errorMessage := by
  simp [validateEntry, inputDef, Options.get, h]

theorem validateEntry_output_ok (opts : Options)
    (h : optTruthy opts.output = true) :
    validateEntry opts ArgKey.output outputDef = Except.ok () := by
  simp [validateEntry, outputDef, Options.get, h]

theorem validateEntry_output_err (opts : Options)
    (h : optTruthy opts.output = false) :
    validateEntry opts ArgKey.output outputDef =
      Except.error outputDef.errorMessage := by
  simp [validateEntry, outputDef, Options.get, h]

theorem validateEntry_size_eq (opts : Options) (s : String)
    (hs : opts.size = some (some s)) (hne : s ≠ "") :
    validateEntry opts ArgKey.size sizeDef =
      (match parseIntJS s with
       | none => Except.error "Size must be a positive number."
       | some v =>
           if v ≤ 0 then Except.error "Size must be a positive number."
           else Except.ok ()) := by
  simp [validateEntry, sizeDef, Options.get, hs, hne]

theorem validateEntry_size_absent (opts : Options) (hs : opts.size = none) :
    validateEntry opts ArgKey.size sizeDef = Except.ok () := by
  simp [validateEntry, sizeDef, Options.get, hs]

theorem validateEntry_format_eq (opts : Options) (s : String)
    (hf : opts.format = some (some s)) :
    validateEntry opts ArgKey.format formatDef =
      (if ["jpg", "png", "webp"].contains (jsToLower s) then Except.ok ()
       else Except.error "Format must be jpg, png, or webp.") := by
  simp [validateEntry, formatDef, Options.get, hf]

theorem validateEntry_format_absent (opts : Options) (hf : opts.format = none) :
    validateEntry opts ArgKey.format formatDef = Except.ok () := by
  simp [validateEntry, formatDef, Options.get, hf]

/-! ### Claims about the parser -/

/-- C6: when a scanned token matches an alias of a schema entry, the entry's
key is bound to the immediately following token verbatim and the scan advances
past both tokens. -/
theorem parse_match_binds_following_token (opts : Options) (tok v : String)
    (rest : List String) (key : ArgKey) (h : findDefinition tok = some key) :
    parseLoop opts (tok :: v :: rest) = parseLoop (opts.set key (some v)) rest ∧
    (parseArguments [tok, v]).get key = some (some v) := by
  constructor
  · simp [parseLoop, h]
  · simp [parseArguments, parseLoop, h, Options.get_set_self]

/-- C7: tokens matching no schema alias are silently ignored and consume no
value slot; the token directly after an unmatched token is still scanned and,
when it is a recognized flag, it consumes the token after it as its value. -/
theorem parse_unmatched_token_ignored (opts : Options) (tok : String)
    (rest : List String) (v w : String) (more : List String) (key : ArgKey)
    (h : findDefinition tok = none) (hv : findDefinition v = some key) :
    parseLoop opts (tok :: rest) = parseLoop opts rest ∧
    parseLoop opts (tok :: v :: w :: more) =
      parseLoop (opts.set key (some w)) more := by
  constructor
  · cases rest with
    | nil => simp [parseLoop, h]
    | cons b bs => simp [parseLoop, h]
  · simp [parseLoop, h, hv]

/-- C9: a recognized flag appearing as the last token binds its schema key to
an `undefined` value (the key is present, its value missing), rather than
failing or leaving the key unset. -/
theorem parse_trailing_flag_binds_undefined (opts : Options) (tok : String)
    (key : ArgKey) (h : findDefinition tok = some key) :
    parseLoop opts [tok] = opts.set key none ∧
    (parseArguments [tok]).get key = some none := by
  constructor
  · simp [parseLoop, h]
  · simp [parseArguments, parseLoop, h, Options.get_set_self]

/-! ### Claims about the validator -/

/-- C3: a missing or empty required field raises that entry's configured
message; the checks run in schema-declaration order, so the input-required
message wins when both required fields are missing, and on the empty options
mapping the input-required message is raised first. -/
theorem validateArguments_required_in_order (opts : Options) :
    (optTruthy opts.input = false →
      validateArguments opts = Except.error inputDef.errorMessage) ∧
    (optTruthy opts.input = true → optTruthy opts.output = false →
      validateArguments opts = Except.error outputDef.errorMessage) ∧
    validateArguments {} = Except.error inputDef.errorMessage := by
  refine ⟨fun h => ?_, fun h1 h2 => ?_, rfl⟩
  · simp [validateArguments, ARGUMENT_DEFINITIONS, validateLoop,
      validateEntry_input_err opts h]
  · simp [validateArguments, ARGUMENT_DEFINITIONS, validateLoop,
      validateEntry_input_ok opts h1, validateEntry_output_err opts h2]

/-- C4: with the required fields satisfied and the size entry's own check
passing, a supplied format value is accepted exactly when its lowercase form
is in the closed set jpg/png/webp, and otherwise the supported-formats error
is raised. -/
theorem validateArguments_format_closed_set (opts : Options) (s : String)
    (h1 : optTruthy opts.input = true) (h2 : optTruthy opts.output = true)
    (h3 : validateEntry opts ArgKey.size sizeDef = Except.ok ())
    (hf : opts.format = some (some s)) :
    validateArguments opts =
      (if ["jpg", "png", "webp"].contains (jsToLower s) then Except.ok ()
       else Except.error "Format must be jpg, png, or webp.") := by
  cases hc : ["jpg", "png", "webp"].contains (jsToLower s) with
  | false =>
      have e4 : validateEntry opts ArgKey.format formatDef =
          Except.error "Format must be jpg, png, or webp." := by
        rw [validateEntry_format_eq opts s hf,
          if_neg (by rw [hc]; exact Bool.false_ne_true)]
      simp [validateArguments, ARGUMENT_DEFINITIONS, validateLoop,
        validateEntry_input_ok opts h1, validateEntry_output_ok opts h2, h3, e4, hc]
  | true =>
      have e4 : validateEntry opts ArgKey.format formatDef = Except.ok () := by
        rw [validateEntry_format_eq opts s hf, if_pos hc]
      simp [validateArguments, ARGUMENT_DEFINITIONS, validateLoop,
        validateEntry_input_ok opts h1, validateEntry_output_ok opts h2, h3, e4, hc]

/-- C5: with the required fields satisfied, sizes `"0"`, `"-100"` and `"abc"`
raise the positive-number error, and size `"500"` (with no format supplied)
passes. -/
theorem validateArguments_size_examples (opts : Options)
    (h1 : optTruthy opts.input = true) (h2 : optTruthy opts.output = true) :
    (opts.size = some (some "0") →
      validateArguments opts = Except.error "Size must be a positive number.") ∧
    (opts.size = some (some "-100") →
      validateArguments opts = Except.error "Size must be a positive number.") ∧
    (opts.size = some (some "abc") →
      validateArguments opts = Except.error "Size must be a positive number.") ∧
    (opts.size = some (some "500") → opts.format = none →
      validateArguments opts = Except.ok ()) := by
  refine ⟨fun hs => ?_, fun hs => ?_, fun hs => ?_, fun hs hfmt => ?_⟩
  · have e3 : validateEntry opts ArgKey.size sizeDef =
        Except.error "Size must be a positive number." := by
      rw [validateEntry_size_eq opts "0" hs (by decide)]
      rfl
    simp [validateArguments, ARGUMENT_DEFINITIONS, validateLoop,
      validateEntry_input_ok opts h1, validateEntry_output_ok opts h2, e3]
  · have e3 : validateEntry opts ArgKey.size sizeDef =
        Except.error "Size must be a positive number." := by
      rw [validateEntry_size_eq opts "-100" hs (by decide)]
      rfl
    simp [validateArguments, ARGUMENT_DEFINITIONS, validateLoop,
      validateEntry_input_ok opts h1, validateEntry_output_ok opts h2, e3]
  · have e3 : validateEntry opts ArgKey.size sizeDef =
        Except.error "Size must be a positive number." := by
      rw [validateEntry_size_eq opts "abc" hs (by decide)]
      rfl
    simp [validateArguments, ARGUMENT_DEFINITIONS, validateLoop,
      validateEntry_input_ok opts h1, validateEntry_output_ok opts h2, e3]
  · have e3 : validateEntry opts ArgKey.size sizeDef = Except.ok () := by
      rw [validateEntry_size_eq opts "500" hs (by decide)]
      rfl
    simp [validateArguments, ARGUMENT_DEFINITIONS, validateLoop,
      validateEntry_input_ok opts h1, validateEntry_output_ok opts h2, e3,
      validateEntry_format_absent opts hfmt]

/-- C10: with the required fields satisfied, no format supplied and a
non-empty size string, validation succeeds exactly when `parseInt`-style
prefix parsing of the string yields a value strictly greater than zero. -/
theorem validateArguments_size_parseInt_iff (opts : Options) (s : String)
    (h1 : optTruthy opts.input = true) (h2 : optTruthy opts.output = true)
    (hf : opts.format = none)
    (hs : opts.size = some (some s)) (hne : s ≠ "") :
    validateArguments opts = Except.ok () ↔
      ∃ v, parseIntJS s = some v ∧ 0 < v := by
  have e1 := validateEntry_input_ok opts h1
  have e2 := validateEntry_output_ok opts h2
  have e4 := validateEntry_format_absent opts hf
  have e3 := validateEntry_size_eq opts s hs hne
  cases hp : parseIntJS s with
  | none =>
      rw [hp] at e3
      simp only [] at e3
      simp [validateArguments, ARGUMENT_DEFINITIONS, validateLoop,
        e1, e2, e3, e4, hp]
  | some v =>
      rw [hp] at e3
      by_cases hv : v ≤ 0
      · simp [hv] at e3
        simp [validateArguments, ARGUMENT_DEFINITIONS, validateLoop,
          e1, e2, e3, e4, hp]
        omega
      · simp [hv] at e3
        simp [validateArguments, ARGUMENT_DEFINITIONS, validateLoop,
          e1, e2, e3, e4, hp]
        omega

/-! ### Helper lemmas for the orchestrator -/

theorem collectAll_map_ok (task : String → Except String String)
    (g : String → String) :
    ∀ l : List String, (∀ f ∈ l, task f = Except.ok (g f)) →
      collectAll (l.map task) = Except.ok (l.map g) := by
  intro l
  induction l with
  | nil => intro _; rfl
  | cons x xs ih =>
      intro h
      have hx : task x = Except.ok (g x) := h x (by simp)
      have hrest : ∀ f ∈ xs, task f = Except.ok (g f) :=
        fun f hf => h f (by simp [hf])
      simp [collectAll, hx, ih hrest, Except.map]

theorem collectAll_map_first_error (task : String → Except String String)
    (p : String → Bool)
    (hp : ∀ f, p f = true ↔ ∃ e, task f = Except.error e) :
    ∀ (l : List String) (f₀ e : String), l.find? p = some f₀ →
      task f₀ = Except.error e →
      collectAll (l.map task) = Except.error e := by
  intro l
  induction l with
  | nil => intro f₀ e hfind; simp at hfind
  | cons x xs ih =>
      intro f₀ e hfind htask
      cases hx : p x with
      | true =>
          rw [List.find?_cons_of_pos _ hx] at hfind
          have hx0 : x = f₀ := by injection hfind
          subst hx0
          simp [collectAll, htask]
      | false =>
          rw [List.find?_cons_of_neg _ (by simp [hx])] at hfind
          cases ht : task x with
          | error e0 =>
              exfalso
              have : p x = true := (hp x).mpr ⟨e0, ht⟩
              rw [hx] at this
              exact Bool.false_ne_true this
          | ok r =>
              simp [collectAll, ht, ih f₀ e hfind htask, Except.map]

/-! ### Claims about the orchestrator -/

/-- C1: on a listing of qualifying files where every external invocation
succeeds, `resizeImages` resolves with exactly one success descriptor per
input file, in order, and each descriptor's destination name is the file's
name with the extension replaced by the requested format when one was
supplied, else the original name preserved (`outputFilenameFor`). -/
theorem resizeImages_all_success (inF outF : String) (w : Int)
    (fmt : Option String) (files : List String)
    (exec : String → Option String)
    (hq : ∀ f ∈ files, matchesImageExt f = true) (hne : files ≠ [])
    (hs : ∀ c, exec c = none) :
    resizeImages inF outF w fmt (Except.ok files) exec =
      Except.ok (ResizeOutcome.results (files.map (fun f =>
        "Resized " ++ f ++ " -> " ++
          pathJoin outF (outputFilenameFor f fmt)))) := by
  have hfilter : files.filter matchesImageExt = files :=
    List.filter_eq_self.mpr hq
  have hempty : files.isEmpty = false := List.isEmpty_eq_false.mpr hne
  have hcollect := collectAll_map_ok (fileTask inF outF w fmt exec)
    (fun f => "Resized " ++ f ++ " -> " ++ pathJoin outF (outputFilenameFor f fmt))
    files (fun f _ => by simp [fileTask, hs])
  simp [resizeImages, hfilter, hempty, hcollect]

/-- C2: on a listing of qualifying files where at least one external
invocation fails, the overall result of `resizeImages` is the rejection of
the first failing file in order — an error carrying that file's name and the
tool's message — and no partial success list is returned. -/
theorem resizeImages_first_failure (inF outF : String) (w : Int)
    (fmt : Option String) (files : List String)
    (exec : String → Option String) (f₀ msg : String)
    (hq : ∀ f ∈ files, matchesImageExt f = true)
    (hfind : files.find?
      (fun f => (exec (buildCmd inF outF w fmt f)).isSome) = some f₀)
    (hmsg : exec (buildCmd inF outF w fmt f₀) = some msg) :
    resizeImages inF outF w fmt (Except.ok files) exec =
      Except.error ("Error resizing " ++ f₀ ++ ": " ++ msg) := by
  have hfilter : files.filter matchesImageExt = files :=
    List.filter_eq_self.mpr hq
  have hne : files ≠ [] := by
    intro h
    subst h
    simp at hfind
  have hempty : files.isEmpty = false := List.isEmpty_eq_false.mpr hne
  have hp : ∀ f, ((exec (buildCmd inF outF w fmt f)).isSome = true) ↔
      ∃ e, fileTask inF outF w fmt exec f = Except.error e := by
    intro f
    cases hc : exec (buildCmd inF outF w fmt f) <;> simp [fileTask, hc]
  have htask : fileTask inF outF w fmt exec f₀ =
      Except.error ("Error resizing " ++ f₀ ++ ": " ++ msg) := by
    simp [fileTask, hmsg]
  have hcollect := collectAll_map_first_error (fileTask inF outF w fmt exec)
    (fun f => (exec (buildCmd inF outF w fmt f)).isSome) hp files f₀
    ("Error resizing " ++ f₀ ++ ": " ++ msg) hfind htask
  simp [resizeImages, hfilter, hempty, hcollect]

/-- C8: when no entry of the listing matches the image-extension set,
`resizeImages` resolves with the neutral informational result; the converter
oracle is never consulted, as the result is the same for every oracle. -/
theorem resizeImages_no_qualifying_files (inF outF : String) (w : Int)
    (fmt : Option String) (files : List String)
    (exec : String → Option String)
    (hq : files.filter matchesImageExt = []) :
    resizeImages inF outF w fmt (Except.ok files) exec =
      Except.ok (ResizeOutcome.message "No JPG or PNG images found in folder.") := by
  simp [resizeImages, hq]

/-! ### Concrete witnesses -/

theorem parse_match_binds_following_token_witness :
    parseLoop {} ["-i", "/in"] =
      parseLoop (Options.set {} ArgKey.input (some "/in")) [] ∧
    (parseArguments ["-i", "/in"]).get ArgKey.input = some (some "/in") :=
  parse_match_binds_following_token {} "-i" "/in" [] ArgKey.input rfl

theorem parse_unmatched_token_ignored_witness :
    parseLoop {} ["-x", "-o", "/out"] = parseLoop {} ["-o", "/out"] ∧
    parseLoop {} ["-x", "-o", "/out"] =
      parseLoop (Options.set {} ArgKey.output (some "/out")) [] :=
  parse_unmatched_token_ignored {} "-x" ["-o", "/out"] "-o" "/out" []
    ArgKey.output rfl rfl

theorem parse_trailing_flag_binds_undefined_witness :
    parseLoop {} ["-f"] = Options.set {} ArgKey.format none ∧
    (parseArguments ["-f"]).get ArgKey.format = some none :=
  parse_trailing_flag_binds_undefined {} "-f" ArgKey.format rfl

theorem validateArguments_required_in_order_witness :
    validateArguments { output := some (some "x") } =
      Except.error inputDef.errorMessage ∧
    validateArguments { input := some (some "x"), output := some (some "") } =
      Except.error outputDef.errorMessage :=
  ⟨(validateArguments_required_in_order { output := some (some "x") }).1 rfl,
   (validateArguments_required_in_order
      { input := some (some "x"), output := some (some "") }).2.1 rfl rfl⟩

theorem validateArguments_format_closed_set_witness :
    validateArguments
      { input := some (some "x"), output := some (some "y"),
        format := some (some "gif") } =
      Except.error "Format must be jpg, png, or webp." ∧
    validateArguments
      { input := some (some "x"), output := some (some "y"),
        format := some (some "") } =
      Except.error "Format must be jpg, png, or webp." ∧
    validateArguments
      { input := some (some "x"), output := some (some "y"),
        format := some (some "JPG") } = Except.ok () :=
  ⟨(validateArguments_format_closed_set
      { input := some (some "x"), output := some (some "y"),
        format := some (some "gif") } "gif" rfl rfl rfl rfl).trans (by rfl),
   (validateArguments_format_closed_set
      { input := some (some "x"), output := some (some "y"),
        format := some (some "") } "" rfl rfl rfl rfl).trans (by rfl),
   (validateArguments_format_closed_set
      { input := some (some "x"), output := some (some "y"),
        format := some (some "JPG") } "JPG" rfl rfl rfl rfl).trans (by rfl)⟩

theorem validateArguments_size_examples_witness :
    validateArguments
      { input := some (some "x"), output := some (some "y"),
        size := some (some "0") } =
      Except.error "Size must be a positive number." ∧
    validateArguments
      { input := some (some "x"), output := some (some "y"),
        size := some (some "-100") } =
      Except.error "Size must be a positive number." ∧
    validateArguments
      { input := some (some "x"), output := some (some "y"),
        size := some (some "abc") } =
      Except.error "Size must be a positive number." ∧
    validateArguments
      { input := some (some "x"), output := some (some "y"),
        size := some (some "500") } = Except.ok () :=
  ⟨(validateArguments_size_examples
      { input := some (some "x"), output := some (some "y"),
        size := some (some "0") } rfl rfl).1 rfl,
   (validateArguments_size_examples
      { input := some (some "x"), output := some (some "y"),
        size := some (some "-100") } rfl rfl).2.1 rfl,
   (validateArguments_size_examples
      { input := some (some "x"), output := some (some "y"),
        size := some (some "abc") } rfl rfl).2.2.1 rfl,
   (validateArguments_size_examples
      { input := some (some "x"), output := some (some "y"),
        size := some (some "500") } rfl rfl).2.2.2 rfl rfl⟩

theorem validateArguments_size_parseInt_iff_witness :
    validateArguments
      { input := some (some "a"), output := some (some "b"),
        size := some (some "350px") } = Except.ok () :=
  (validateArguments_size_parseInt_iff
    { input := some (some "a"), output := some (some "b"),
      size := some (some "350px") }
    "350px" rfl rfl rfl rfl (by decide)).mpr ⟨350, rfl, by decide⟩

theorem resizeImages_all_success_witness :
    resizeImages "in" "out" 350 (some "webp")
      (Except.ok ["a.jpg", "b.PNG"]) (fun _ => none) =
      Except.ok (ResizeOutcome.results
        ["Resized a.jpg -> out/a.webp", "Resized b.PNG -> out/b.webp"]) :=
  (resizeImages_all_success "in" "out" 350 (some "webp") ["a.jpg", "b.PNG"]
    (fun _ => none) (by decide) (by decide) (fun c => rfl)).trans (by rfl)

theorem resizeImages_first_failure_witness :
    resizeImages "in" "out" 350 none (Except.ok ["a.jpg", "b.png"])
      (fun c => if c = buildCmd "in" "out" 350 none "b.png"
                then some "boom" else none) =
      Except.error "Error resizing b.png: boom" :=
  (resizeImages_first_failure "in" "out" 350 none ["a.jpg", "b.png"]
    (fun c => if c = buildCmd "in" "out" 350 none "b.png"
              then some "boom" else none)
    "b.png" "boom" (by decide) (by decide) (by decide)).trans (by rfl)

theorem resizeImages_no_qualifying_files_witness :
    resizeImages "in" "out" 350 none
      (Except.ok ["notes.txt", "archive.zip"])
      (fun _ => some "converter must not run") =
      Except.ok (ResizeOutcome.message "No JPG or PNG images found in folder.") :=
  resizeImages_no_qualifying_files "in" "out" 350 none
    ["notes.txt", "archive.zip"] (fun _ => some "converter must not run")
    (by decide)
